import Mathlib

/-!
Shallow embedding of the two components of this repository:

* `src/dc_custom_component/components/converters/excel_converter.py`
  (`PandasExcelToDocument`): workbook → per-sheet rendered tables.
* `src/dc_custom_component/components/augmenters/link_adder.py`
  (`ExternalLinkAdder`): answers + cited documents → appended footnote links.

Cells loaded from a sheet are modelled as `Option String`: `none` models a
pandas `NaN` cell.  `pandas.read_excel` (the loader used at
`excel_converter.py:102`) converts blank cells and cells holding the empty
string to `NaN` (its default `na_values` set contains the empty string), so a
loaded grid never holds an empty-string scalar; scalars are modelled already
rendered to text.
-/

/-- A cell of a loaded sheet: `none` is pandas `NaN`. -/
abbrev Cell := Option String

/-- A sheet as loaded: rows of cells (rectangularized by `loadDF`). -/
abbrev Grid := List (List Cell)

/-- A metadata value: either a scalar (modelled as text) or a string-to-string
dictionary (used by `sheet_name_id_map`). -/
inductive MetaVal
  | str (s : String)
  | dict (m : List (String × String))
deriving DecidableEq

/-- Metadata: an association list modelling a python dict.  Lookup takes the
first binding, so python's "later keys win" merge `\x7b**a, **b\x7d` is modelled by
the list `b ++ a`. -/
abbrev Meta := List (String × MetaVal)

/-- Python `d.get(k)`: first binding for `k`, if any. -/
def metaGet (m : Meta) (k : String) : Option MetaVal :=
  (m.find? (fun p => p.1 == k)).map (fun p => p.2)

/-- Python `d.get(k, default)` for string-valued metadata. -/
def metaGetStrD (m : Meta) (k : String) (d : String) : String :=
  match metaGet m k with
  | some (MetaVal.str s) => s
  | _ => d

/-- Python `d.get(k, \x7b\x7d)` for dict-valued metadata. -/
def metaGetDictD (m : Meta) (k : String) : List (String × String) :=
  match metaGet m k with
  | some (MetaVal.dict mm) => mm
  | _ => []

/-- The python while-loop of `_generate_excel_column_names`
(excel_converter.py:92-94), run with explicit fuel so that the definition is
structurally recursive: prepend `chr(num % 26 + 65)` and continue with
`num // 26 - 1` while that stays nonnegative (i.e. while `26 ≤ num`).  The
successor value is strictly smaller, so `num + 1` units of fuel always
suffice and the fuel-exhausted branch is unreachable. -/
def colLettersGo : Nat → Nat → String
  | _, 0 => ""
  | num, fuel + 1 =>
    if num < 26 then String.singleton (Char.ofNat (num % 26 + 65))
    else colLettersGo (num / 26 - 1) fuel ++ String.singleton (Char.ofNat (num % 26 + 65))

/-- The column letters of 0-based column `num`: `0 ↦ A`, `25 ↦ Z`, `26 ↦ AA`. -/
def colLetters (num : Nat) : String :=
  colLettersGo num (num + 1)

/-- `PandasExcelToDocument._generate_excel_column_names`
(excel_converter.py:86-96): bijective base-26 column letters for `n_cols`
columns. -/
def _generate_excel_column_names (n_cols : Nat) : List String :=
  (List.range n_cols).map colLetters

/-- A pandas `DataFrame` as used by `_extract_tables`: row labels (`index`),
column labels (`columns`) and the rectangular cell grid. -/
structure DF where
  index : List Int
  columns : List String
  data : List (List Cell)
deriving DecidableEq

/-- `pandas.RangeIndex(n)`: the default labels `0, 1, ..., n-1`. -/
def defaultIndex (n : Nat) : List Int :=
  (List.range n).map (fun i => (i : Int))

/-- Width a grid gets when loaded: pandas pads ragged rows with `NaN` to the
longest row. -/
def gridNcols (g : Grid) : Nat :=
  g.foldr (fun r m => max r.length m) 0

/-- `pandas.read_excel(..., header=None)` for one sheet
(excel_converter.py:102-107): default integer row and column labels, rows
padded with `NaN` to a rectangle. -/
def loadDF (g : Grid) : DF :=
  let n := gridNcols g
  { index := defaultIndex g.length
    columns := (List.range n).map (fun j => toString j)
    data := g.map (fun row => (List.range n).map (fun j => row.getD j none)) }

/-- The column positions `dropna(axis=1, how="all")` keeps: those with at
least one non-`NaN` cell. -/
def keepCols (df : DF) : List Nat :=
  (List.range df.columns.length).filter
    (fun j => df.data.any (fun row => (row.getD j none).isSome))

/-- `df.dropna(axis=1, how="all", ignore_index=True)`
(excel_converter.py:123): keep every column with at least one non-`NaN` cell
(surviving column labels are kept), then — because of `ignore_index=True`,
which always resets the row index regardless of `axis` — relabel the rows
`0, 1, ...`. -/
def dropna_cols (df : DF) : DF :=
  { index := defaultIndex df.data.length
    columns := (keepCols df).map (fun j => df.columns.getD j "")
    data := df.data.map (fun row => (keepCols df).map (fun j => row.getD j none)) }

/-- `df.dropna(axis=0, how="all", ignore_index=True)`
(excel_converter.py:124): keep every row with at least one non-`NaN` cell,
then relabel the rows `0, 1, ...`. -/
def dropna_rows (df : DF) : DF :=
  { index := defaultIndex (df.data.filter (fun row => row.any (fun c => c.isSome))).length
    columns := df.columns
    data := df.data.filter (fun row => row.any (fun c => c.isSome)) }

/-- The value held by the shared `out_header` variable
(excel_converter.py:110,122): for csv a boolean (`False`/`True`), otherwise a
header sequence, with the empty tuple `()` modelled as `names []`. -/
inductive HeaderArg
  | flag (b : Bool)
  | names (hs : List String)
deriving DecidableEq

/-- The behaviorally significant keys of `table_format_kwargs`
(excel_converter.py:131-145): the python dict merge
`\x7b"index": ..., "header(s)": ..., **self.table_format_kwargs\x7d` is modelled by
resolving each key as `user value if supplied, else computed value`; other
(cosmetic) renderer options do not affect the properties proved here. -/
structure Kwargs where
  index : Option Bool := none
  header : Option HeaderArg := none
  headers : Option HeaderArg := none
deriving DecidableEq

/-- The constructor configuration of `PandasExcelToDocument`
(excel_converter.py:15-30).  `table_format` is a plain string: python does not
enforce the `Literal` annotation, which is how the unsupported-format branch
can be reached. -/
structure Config where
  table_format : String := "csv"
  preserve_cell_identifiers : Bool := false
  table_format_kwargs : Kwargs := {}
deriving DecidableEq

/-- Minimal csv quoting of `to_csv` (QUOTE_MINIMAL): quote a field holding a
comma, quote, or line break, doubling inner quotes. -/
def csvQuote (s : String) : String :=
  if s.toList.any (fun c => c == ',' || c == '"' || c == '\n' || c == '\r') then
    "\"" ++ (s.toList.foldl
      (fun acc c => acc ++ if c == '"' then "\"\"" else String.singleton c) "") ++ "\""
  else s

/-- `to_csv` rendering of one cell: `NaN` becomes the empty field. -/
def csvCell : Cell → String
  | none => ""
  | some s => csvQuote s

/-- `pandas.DataFrame.to_csv` (excel_converter.py:137) restricted to the
options the component passes: an optional header line (`header=False/True` or
an alias list), an optional leading index column with an empty header slot,
one newline-terminated line per row. -/
def to_csv (df : DF) (index : Bool) (header : HeaderArg) : String :=
  let headerLine : List String :=
    match header with
    | HeaderArg.flag false => []
    | HeaderArg.flag true =>
        [String.intercalate "," ((if index then [""] else []) ++ df.columns.map csvQuote)]
    | HeaderArg.names hs =>
        [String.intercalate "," ((if index then [""] else []) ++ hs.map csvQuote)]
  let rowLines := (df.index.zip df.data).map (fun p =>
    String.intercalate ","
      ((if index then [toString p.1] else []) ++ p.2.map csvCell))
  String.join ((headerLine ++ rowLines).map (fun l => l ++ "\n"))

/-- `to_markdown` rendering of one cell: a `NaN` float prints as `nan`. -/
def mdCell : Cell → String
  | none => "nan"
  | some s => s

/-- Pad a string with spaces on the right to the given width. -/
def padTo (s : String) (w : Nat) : String :=
  s ++ String.mk (List.replicate (w - s.length) ' ')

/-- `pandas.DataFrame.to_markdown` via tabulate's `pipe` format
(excel_converter.py:148): the index column is prepended when shown, an
explicit header list shorter than the rows is left-padded with empty headers
(tabulate's normalization), an empty header sequence (`()`) suppresses the
header rows, cells are padded to the column width.  The exact padding and
alignment cosmetics of the external library are immaterial to the claims
proved here; what matters is which header list is rendered. -/
def to_markdown (df : DF) (showindex : Bool) (headers : HeaderArg) : String :=
  let rows := df.data.map (fun r => r.map mdCell)
  let rows := if showindex then
      (df.index.zip rows).map (fun p => toString p.1 :: p.2)
    else rows
  let hdr : Option (List String) :=
    match headers with
    | HeaderArg.names [] => none
    | HeaderArg.names hs => some hs
    | HeaderArg.flag _ => none
  let ncols := match rows.head? with
    | some r => r.length
    | none => (hdr.getD []).length
  let hdr := hdr.map (fun hs => List.replicate (ncols - hs.length) "" ++ hs)
  let widths := (List.range ncols).map (fun j =>
    max ((hdr.map (fun hs => (hs.getD j "").length + 2)).getD 0)
        (rows.foldr (fun r m => max (r.getD j "").length m) 0))
  let line := fun (cells : List String) =>
    "|" ++ String.join ((cells.zip widths).map (fun p => " " ++ padTo p.1 p.2 ++ " |"))
  let sep := "|" ++ String.join (widths.map (fun w =>
    ":" ++ String.mk (List.replicate (w + 1) '-') ++ "|"))
  let headerLines := match hdr with
    | none => []
    | some hs => [line hs, sep]
  String.intercalate "\n" (headerLines ++ rows.map line)

/-- One iteration of the rendering branch of `_extract_tables`
(excel_converter.py:130-151): resolve the renderer arguments by merging the
computed `keep_index`/`out_header` values with `table_format_kwargs` (user
keys win, as in the python dict literal), render, or raise for any other
format. -/
def renderOne (cfg : Config) (keep_index : Bool) (out_header : HeaderArg)
    (df : DF) : Except String String :=
  if cfg.table_format == "csv" then
    Except.ok (to_csv df
      (cfg.table_format_kwargs.index.getD keep_index)
      (cfg.table_format_kwargs.header.getD out_header))
  else if cfg.table_format == "markdown" then
    Except.ok (to_markdown df
      (cfg.table_format_kwargs.index.getD keep_index)
      (cfg.table_format_kwargs.headers.getD out_header))
  else
    Except.error ("Unsupported export format: " ++ cfg.table_format ++
      ". Choose either 'csv' or 'markdown'.")

/-- The first loop of `_extract_tables` (excel_converter.py:113-125): per
sheet, when `preserve_cell_identifiers` is set, shift the row labels to start
at 1, relabel the columns with letters, and update the loop-shared
`keep_index`/`out_header` variables; then drop empty columns, then empty rows.
The final values of the two shared variables are returned with the sheets. -/
def annotTrimGo (cfg : Config) :
    Bool → HeaderArg → List (String × DF) → List (String × DF) × Bool × HeaderArg
  | ki, oh, [] => ([], ki, oh)
  | ki, oh, (name, df) :: rest =>
    let step :=
      if cfg.preserve_cell_identifiers then
        let header := _generate_excel_column_names df.columns.length
        ({ df with index := df.index.map (fun i => i + 1), columns := header },
         true,
         if cfg.table_format == "csv" then HeaderArg.flag true
         else HeaderArg.names header)
      else (df, ki, oh)
    let df2 := dropna_rows (dropna_cols step.1)
    let rec2 := annotTrimGo cfg step.2.1 step.2.2 rest
    ((name, df2) :: rec2.1, rec2.2)

/-- The second loop of `_extract_tables` (excel_converter.py:127-152): render
each sheet with the shared `keep_index`/`out_header` values and collect the
per-sheet `sheet_name` metadata; a raised rendering error aborts the loop. -/
def renderLoop (cfg : Config) (keep_index : Bool) (out_header : HeaderArg) :
    List (String × DF) → Except String (List String × List Meta)
  | [] => Except.ok ([], [])
  | (name, df) :: rest => do
    let t ← renderOne cfg keep_index out_header df
    let r ← renderLoop cfg keep_index out_header rest
    Except.ok (t :: r.1, [("sheet_name", MetaVal.str name)] :: r.2)

/-- `PandasExcelToDocument._extract_tables` (excel_converter.py:98-153) on an
already-parsed workbook: load each sheet, run the annotate/trim loop with the
shared state initialized as on lines 109-110, then the rendering loop. -/
def extractTables (cfg : Config) (wb : List (String × Grid)) :
    Except String (List String × List Meta) :=
  let dfs := wb.map (fun s => (s.1, loadDF s.2))
  let r := annotTrimGo cfg false
    (if cfg.table_format == "csv" then HeaderArg.flag false else HeaderArg.names [])
    dfs
  renderLoop cfg r.2.1 r.2.2 r.1

/-- A resolved byte stream: its attached metadata and the outcome of
`pd.read_excel` on its bytes (`none` models a parse failure, which raises). -/
structure ByteStream where
  meta : Meta
  parsed : Option (List (String × Grid))
deriving DecidableEq

/-- A source given to `run`: either it resolves to a byte stream or
`get_bytestream_from_source` raises (excel_converter.py:59-63). -/
inductive Source
  | ok (bs : ByteStream)
  | unreadable
deriving DecidableEq

/-- A haystack `Document`: identifier, content and metadata. -/
structure Document where
  id : String := ""
  content : String := ""
  meta : Meta := []
deriving DecidableEq

/-- `_extract_tables` including the parse step it performs
(excel_converter.py:102-107): a parse failure raises. -/
def extractTablesBS (cfg : Config) (bs : ByteStream) :
    Except String (List String × List Meta) :=
  match bs.parsed with
  | none => Except.error "could not parse workbook"
  | some wb => extractTables cfg wb

/-- `PandasExcelToDocument.run` (excel_converter.py:32-84).  The return type
is `Except` so that an exception escaping the method would be visible as an
`error`; per source, a failed byte-stream resolution or any exception raised
by `_extract_tables` (parse failure or unsupported format) is caught by the
surrounding `except Exception` blocks and the source is skipped.  Per-sheet
documents carry `\x7b**bytestream.meta, **metadata, **excel_metadata\x7d`, modelled
with first-match lookup as `excel ++ caller ++ stream`. -/
def PandasExcelToDocument.run (cfg : Config) (sources : List Source)
    (meta_list : List Meta) : Except String (List Document) :=
  Except.ok ((sources.zip meta_list).foldl (fun documents sm =>
    match sm.1 with
    | Source.unreadable => documents
    | Source.ok bs =>
      match extractTablesBS cfg bs with
      | Except.error _ => documents
      | Except.ok tm =>
        documents ++ (tm.1.zip tm.2).map (fun te =>
          { id := "", content := te.1, meta := te.2 ++ sm.2 ++ bs.meta })) [])

/-! ### The reference resolver (`link_adder.py`) -/

/-- One entry of the `_references` citation list. -/
structure Reference where
  document_id : String
  answer_start_idx : Nat
deriving DecidableEq

/-- A haystack `Answer` as consumed by `ExternalLinkAdder.run`: its text, its
candidate source documents, and the `_references` metadata entry (`none`
models an absent key, python's `answer.meta.get('_references', None)`). -/
structure Answer where
  data : String
  documents : List Document
  references : Option (List Reference)
deriving DecidableEq

/-- Python `needle in hay` on strings: some contiguous slice equals the
needle. -/
def strContains (hay needle : String) : Bool :=
  (List.range (hay.toList.length + 1)).any
    (fun i => decide (((hay.toList.drop i).take needle.toList.length) = needle.toList))

/-- Try the regex `\x7bRow (\d+)\x7d` at the head of the text: the literal opener,
one or more digits (captured), the closing brace. -/
def rowMarkerAt : List Char → Option String
  | '{' :: 'R' :: 'o' :: 'w' :: ' ' :: rest =>
    let ds := rest.takeWhile Char.isDigit
    if ds.isEmpty then none
    else match rest.drop ds.length with
      | '}' :: _ => some (String.mk ds)
      | _ => none
  | _ => none

/-- `re.search(r"\x7bRow (\d+)\x7d", text)` (link_adder.py:29): the leftmost
match's captured digits. -/
def searchRowMarker : List Char → Option String
  | [] => none
  | c :: rest =>
    match rowMarkerAt (c :: rest) with
    | some r => some r
    | none => searchRowMarker rest

/-- The per-match body of `ExternalLinkAdder.run` (link_adder.py:22-34):
build the `(link_name, url)` pair for a citation `r` matched to document `d`
on answer `a`. -/
def resolveReference (a : Answer) (r : Reference) (d : Document) :
    String × String :=
  let src_url := metaGetStrD d.meta "src_url" ""
  let link_name := metaGetStrD d.meta "file_name" ""
  if strContains src_url "spreadsheets" then
    let sheet_name := metaGetStrD d.meta "sheet_name" ""
    let link_name := link_name ++ "#" ++ sheet_name
    let sheet_id :=
      ((metaGetDictD d.meta "sheet_name_id_map").find?
        (fun p => p.1 == sheet_name)).elim "" (fun p => p.2)
    let src_url := src_url ++ "?gid=" ++ sheet_id ++ "#gid=" ++ sheet_id
    match searchRowMarker (a.data.drop r.answer_start_idx).toList with
    | some row =>
      (link_name ++ "!" ++ row ++ ":" ++ row,
       src_url ++ "&range=" ++ row ++ ":" ++ row)
    | none => (link_name, src_url)
  else (link_name, src_url)

/-- The citation loop of `ExternalLinkAdder.run` (link_adder.py:17-35): for
each reference in order, the first document whose `id` equals the reference's
`document_id` (the inner loop breaks at the first match) contributes one
resolved link; an unmatched reference contributes nothing; an absent
`_references` key contributes nothing. -/
def externalLinks (a : Answer) : List (String × String) :=
  match a.references with
  | none => []
  | some refs => refs.filterMap (fun r =>
      (a.documents.find? (fun d => d.id == r.document_id)).map
        (resolveReference a r))

/-- The footnote accumulation of `ExternalLinkAdder.run` (link_adder.py:37-39):
`external_link_str += "\n\n[[Ext \x7bi+1\x7d]\x7blink_name\x7d](\x7burl\x7d)"`. -/
def footnoteStr (links : List (String × String)) : String :=
  links.enum.foldl (fun acc p =>
    acc ++ ("\n\n[[Ext " ++ toString (p.1 + 1) ++ "]" ++ p.2.1 ++ "](" ++ p.2.2 ++ ")")) ""

/-- The per-answer body of `ExternalLinkAdder.run` (link_adder.py:15-40): the
footnote block is appended only when at least one citation resolved (python's
`if external_links:`). -/
def processAnswer (a : Answer) : Answer :=
  let links := externalLinks a
  if links.isEmpty then a
  else { a with data := a.data ++ footnoteStr links }

/-- `ExternalLinkAdder.run` (link_adder.py:14-42): every answer of the batch
is processed independently; the function is total (never raises, never
logs). -/
def ExternalLinkAdder.run (answers : List Answer) : List Answer :=
  answers.map processAnswer

/-! ### Claims -/

/-- C9: `_generate_excel_column_names n` returns `n` bijective base-26 column
letters, with `0 ↦ "A"`, `25 ↦ "Z"`, `26 ↦ "AA"`; in particular for 28
columns it yields `A..Z, AA, AB`. -/
theorem c9_column_label_generation :
    (∀ n, (_generate_excel_column_names n).length = n)
    ∧ colLetters 0 = "A"
    ∧ colLetters 25 = "Z"
    ∧ colLetters 26 = "AA"
    ∧ _generate_excel_column_names 28
      = ["A", "B", "C", "D", "E", "F", "G", "H", "I", "J", "K", "L", "M",
         "N", "O", "P", "Q", "R", "S", "T", "U", "V", "W", "X", "Y", "Z",
         "AA", "AB"] :=
  ⟨fun n => by simp [_generate_excel_column_names],
   by decide, by decide, by decide, by decide⟩

/-- C1 (evaluation at the failing input): with identifier preservation and
csv format, a 2-row table whose column `B` is fully empty renders with the
surviving columns still labelled `A`/`C` — the column half of the claim — but
with its rows labelled `0`/`1` instead of the original 1-based `1`/`2`: the
`ignore_index=True` of both `dropna` calls resets the row index after
trimming, contradicting the claim (and the code's own `row starts at 1`
annotation) that surviving rows keep their pre-trim labels. -/
theorem c1_trimming_relabels_rows :
    extractTables { table_format := "csv", preserve_cell_identifiers := true }
        [("Sheet1", [[some "a1", none, some "c1"], [some "a2", none, some "c2"]])]
      = Except.ok ([",A,C\n0,a1,c1\n1,a2,c2\n"], [[("sheet_name", MetaVal.str "Sheet1")]])
    ∧ (",A,C\n0,a1,c1\n1,a2,c2\n" : String) ≠ ",A,C\n1,a1,c1\n2,a2,c2\n" :=
  ⟨rfl, by decide⟩

/-- C2 counterexample: with `table_format="xml"`, `run` on a perfectly
readable and parseable source returns normally with no documents — the
`ValueError` raised inside `_extract_tables` is caught by the
`except Exception` around the call (excel_converter.py:66-72), so it does
not propagate out, and the source is soft-skipped exactly like an
unparseable source (second conjunct), contrary to the claim. -/
theorem c2_counterexample :
    PandasExcelToDocument.run { table_format := "xml" }
        [Source.ok { meta := [], parsed := some [("Sheet1", [[some "x"]])] }] [[]]
      = Except.ok []
    ∧ PandasExcelToDocument.run { table_format := "xml" }
        [Source.ok { meta := [], parsed := none }] [[]]
      = Except.ok [] :=
  ⟨rfl, rfl⟩

/-- C2 amended: rendering with unsupported `table_format="xml"` raises a
`ValueError` naming the invalid value inside `_extract_tables`, which
therefore produces no tables for that source; but the error is caught by
`run`'s `except Exception` block and the source is soft-skipped (with a
warning log) exactly like an unreadable or unparseable source, so `run`
returns normally with no documents instead of propagating the error. -/
theorem c2_amended_format_error_is_caught (wb : List (String × Grid))
    (hne : wb ≠ []) (bsm um : Meta) :
    extractTables { table_format := "xml" } wb
      = Except.error "Unsupported export format: xml. Choose either 'csv' or 'markdown'."
    ∧ PandasExcelToDocument.run { table_format := "xml" }
        [Source.ok { meta := bsm, parsed := some wb }] [um]
      = Except.ok [] := by
  obtain ⟨s, rest, rfl⟩ := List.exists_cons_of_ne_nil hne
  exact ⟨rfl, rfl⟩

/-- C2 witness: the amended statement at a concrete one-sheet workbook. -/
theorem c2_amended_format_error_is_caught_witness :
    extractTables { table_format := "xml" } [("Sheet1", [[some "x"]])]
      = Except.error "Unsupported export format: xml. Choose either 'csv' or 'markdown'."
    ∧ PandasExcelToDocument.run { table_format := "xml" }
        [Source.ok { meta := [], parsed := some [("Sheet1", [[some "x"]])] }] [[]]
      = Except.ok [] :=
  c2_amended_format_error_is_caught [("Sheet1", [[some "x"]])] (by decide) [] []

/-- Configuration of C3's scenario: csv with identifier preservation, with
user `table_format_kwargs` supplying its own `index`/`header` values. -/
def cfgC3 (b : Bool) (h : HeaderArg) : Config :=
  { table_format := "csv"
    preserve_cell_identifiers := true
    table_format_kwargs := { index := some b, header := some h } }

/-- C3 counterexample: with identifier preservation enabled and
`table_format_kwargs` supplying conflicting `index`/`header` keys, the
user-supplied values win — the sheet renders as `"x\n"`, without the computed
index column and header row that rendering with the computed flags would
produce (second conjunct) — because the python dict literal places
`**self.table_format_kwargs` after the computed entries. -/
theorem c3_counterexample :
    extractTables (cfgC3 false (HeaderArg.flag false)) [("S", [[some "x"]])]
      = Except.ok (["x\n"], [[("sheet_name", MetaVal.str "S")]])
    ∧ to_csv { index := [0], columns := ["A"], data := [[some "x"]] } true (HeaderArg.flag true)
      = ",A\n0,x\n"
    ∧ ("x\n" : String) ≠ ",A\n0,x\n" :=
  ⟨rfl, rfl, by decide⟩

/-- C3 amended: user-supplied `table_format_kwargs` take precedence over all
of the renderer's computed defaults, including the computed header/index
flags of identifier preservation (first conjunct: arbitrary user values `b`,
`h` reach the renderer verbatim); the computed values apply only for keys the
user did not supply (second conjunct). -/
theorem c3_amended_user_kwargs_win (b : Bool) (h : HeaderArg) :
    extractTables (cfgC3 b h) [("S", [[some "x"]])]
      = Except.ok ([to_csv { index := [0], columns := ["A"], data := [[some "x"]] } b h],
                   [[("sheet_name", MetaVal.str "S")]])
    ∧ extractTables { table_format := "csv", preserve_cell_identifiers := true }
        [("S", [[some "x"]])]
      = Except.ok ([to_csv { index := [0], columns := ["A"], data := [[some "x"]] } true
                      (HeaderArg.flag true)],
                   [[("sheet_name", MetaVal.str "S")]]) :=
  ⟨rfl, rfl⟩

/-- Emptiness of a cell in the spec's sense: null or the empty string. -/
def cellEmpty (c : Cell) : Bool :=
  c == none || c == some ""

/-- A grid as produced by `pandas.read_excel` under its default NA handling:
no cell holds the empty-string scalar, because blank workbook cells load as
`NaN` and pandas' default `na_values` set contains the empty string, so
empty-string workbook cells also load as `NaN`. -/
def NormalizedGrid (g : List (List Cell)) : Prop :=
  ∀ row ∈ g, ∀ c ∈ row, c ≠ some ""

instance (g : List (List Cell)) : Decidable (NormalizedGrid g) := by
  unfold NormalizedGrid; infer_instance

/-- For a cell that is not the empty-string scalar, pandas' NA test
(`isSome` on the model) agrees with the spec's emptiness notion. -/
lemma isSome_eq_not_cellEmpty (c : Cell) (h : c ≠ some "") :
    c.isSome = !cellEmpty c := by
  cases c with
  | none => rfl
  | some s =>
    have hs : (s == "") = false := by
      cases hEq : s == "" with
      | true => exact absurd (by rw [eq_of_beq hEq]) h
      | false => rfl
    simp [cellEmpty, hs]

/-- Over empty-string-free cells, `any isSome` is the negation of
`all cellEmpty`. -/
lemma any_isSome_eq_not_all_cellEmpty (l : List Cell) (h : ∀ c ∈ l, c ≠ some "") :
    l.any (fun c => c.isSome) = !l.all cellEmpty := by
  induction l with
  | nil => rfl
  | cons c cs ih =>
    have h1 := isSome_eq_not_cellEmpty c (h c (by simp))
    have h2 := ih (fun x hx => h x (by simp [hx]))
    simp [List.any_cons, List.all_cons, h1, h2, Bool.not_and]

/-- Indexing with a `NaN` default never produces the empty-string scalar in
an empty-string-free row. -/
lemma getD_ne_empty (r : List Cell) (j : Nat) (h : ∀ c ∈ r, c ≠ some "") :
    r.getD j none ≠ some "" := by
  induction r generalizing j with
  | nil => simp [List.getD]
  | cons c cs ih =>
    cases j with
    | zero => exact h c (by simp)
    | succ j =>
      have := ih j (fun x hx => h x (by simp [hx]))
      simpa using this

/-- Column emptiness: over a normalized grid, "some cell of column `j` is
non-NA" is the negation of "every cell of column `j` is null/empty". -/
lemma any_getD_eq (rows : List (List Cell)) (j : Nat)
    (h : ∀ row ∈ rows, ∀ c ∈ row, c ≠ some "") :
    rows.any (fun row => (row.getD j none).isSome)
      = !rows.all (fun row => cellEmpty (row.getD j none)) := by
  induction rows with
  | nil => rfl
  | cons r rs ih =>
    have h1 : (r.getD j none).isSome = !cellEmpty (r.getD j none) :=
      isSome_eq_not_cellEmpty _ (getD_ne_empty r j (h r (by simp)))
    have h2 := ih (fun x hx => h x (by simp [hx]))
    simp only [List.any_cons, List.all_cons, h1, h2, Bool.not_and]

/-- C4: on a loaded (empty-string-free) table, the trimming performed by
`_extract_tables` is exactly: first drop every column in which every cell is
null/empty, then drop every row in which every remaining cell is null/empty —
in this column-then-row order, with both filters preserving the relative
order of the surviving columns and rows. -/
theorem c4_trim_columns_then_rows (df : DF) (hn : NormalizedGrid df.data) :
    (dropna_rows (dropna_cols df)).data =
      (df.data.map (fun row =>
        ((List.range df.columns.length).filter
          (fun j => !df.data.all (fun r => cellEmpty (r.getD j none)))).map
          (fun j => row.getD j none))).filter
        (fun row => !row.all cellEmpty) := by
  have hkeep : keepCols df =
      (List.range df.columns.length).filter
        (fun j => !df.data.all (fun r => cellEmpty (r.getD j none))) :=
    List.filter_congr (fun j _ => any_getD_eq df.data j hn)
  have hrows : ∀ row ∈ df.data.map (fun row => (keepCols df).map (fun j => row.getD j none)),
      row.any (fun c => c.isSome) = !row.all cellEmpty := by
    intro row hrow
    obtain ⟨r, hr, rfl⟩ := List.mem_map.1 hrow
    refine any_isSome_eq_not_all_cellEmpty _ (fun c hc => ?_)
    obtain ⟨j, _, rfl⟩ := List.mem_map.1 hc
    exact getD_ne_empty r j (hn r hr)
  calc (dropna_rows (dropna_cols df)).data
      = (df.data.map (fun row => (keepCols df).map (fun j => row.getD j none))).filter
          (fun row => row.any (fun c => c.isSome)) := rfl
    _ = (df.data.map (fun row => (keepCols df).map (fun j => row.getD j none))).filter
          (fun row => !row.all cellEmpty) := List.filter_congr hrows
    _ = _ := by rw [hkeep]

/-- A concrete loaded table for the C4 witness: column 1 is all-empty and
row 1 becomes all-empty. -/
def df4 : DF :=
  { index := [0, 1]
    columns := ["0", "1"]
    data := [[some "x", none], [none, none]] }

/-- C4 witness: a concrete normalized table with an all-empty column and an
all-empty row. -/
theorem c4_trim_columns_then_rows_witness :
    NormalizedGrid df4.data
    ∧ (dropna_rows (dropna_cols df4)).data = [[some "x"]] :=
  ⟨by decide, (c4_trim_columns_then_rows df4 (by decide)).trans (by decide)⟩

/-- The annotate/trim loop does not change which sheets are present or their
order: the sheet-name projection of its result is that of its input. -/
lemma annotTrimGo_names (cfg : Config) :
    ∀ (ki : Bool) (oh : HeaderArg) (l : List (String × DF)),
    ((annotTrimGo cfg ki oh l).1).map Prod.fst = l.map Prod.fst := by
  intro ki oh l
  induction l generalizing ki oh with
  | nil => rfl
  | cons s rest ih =>
    obtain ⟨name, df⟩ := s
    simp [annotTrimGo, ih]

/-- The annotate/trim loop preserves the number of sheets. -/
lemma annotTrimGo_length (cfg : Config) :
    ∀ (ki : Bool) (oh : HeaderArg) (l : List (String × DF)),
    ((annotTrimGo cfg ki oh l).1).length = l.length := by
  intro ki oh l
  induction l generalizing ki oh with
  | nil => rfl
  | cons s rest ih =>
    obtain ⟨name, df⟩ := s
    simp [annotTrimGo, ih]

/-- For a supported format the renderer never raises. -/
lemma renderOne_ok (cfg : Config)
    (hfmt : cfg.table_format = "csv" ∨ cfg.table_format = "markdown")
    (ki : Bool) (oh : HeaderArg) (df : DF) :
    ∃ t, renderOne cfg ki oh df = Except.ok t := by
  rcases hfmt with hf | hf
  · exact ⟨to_csv df (cfg.table_format_kwargs.index.getD ki)
        (cfg.table_format_kwargs.header.getD oh),
      by unfold renderOne; rw [hf]; rfl⟩
  · exact ⟨to_markdown df (cfg.table_format_kwargs.index.getD ki)
        (cfg.table_format_kwargs.headers.getD oh),
      by unfold renderOne; rw [hf]; rfl⟩

/-- For a supported format the rendering loop succeeds on every sheet and
tags each, in order, with its `sheet_name` metadata. -/
lemma renderLoop_ok (cfg : Config)
    (hfmt : cfg.table_format = "csv" ∨ cfg.table_format = "markdown") :
    ∀ (l : List (String × DF)) (ki : Bool) (oh : HeaderArg),
    ∃ ts, renderLoop cfg ki oh l
        = Except.ok (ts, l.map (fun s => [("sheet_name", MetaVal.str s.1)]))
      ∧ ts.length = l.length := by
  intro l
  induction l with
  | nil => exact fun ki oh => ⟨[], rfl, rfl⟩
  | cons s rest ih =>
    intro ki oh
    obtain ⟨name, df⟩ := s
    obtain ⟨ts, hts, hlen⟩ := ih ki oh
    obtain ⟨t, ht⟩ := renderOne_ok cfg hfmt ki oh df
    refine ⟨t :: ts, ?_, by simp [hlen]⟩
    simp only [renderLoop, ht, hts]
    rfl

/-- Transport a map over the name projection along equal projections. -/
lemma map_over_fst {α β γ : Type} (g : String → γ)
    (l1 : List (String × α)) (l2 : List (String × β))
    (h : l1.map Prod.fst = l2.map Prod.fst) :
    l1.map (fun s => g s.1) = l2.map (fun s => g s.1) := by
  have e1 : l1.map (fun s => g s.1) = (l1.map Prod.fst).map g := by
    rw [List.map_map]; rfl
  have e2 : l2.map (fun s => g s.1) = (l2.map Prod.fst).map g := by
    rw [List.map_map]; rfl
  rw [e1, e2, h]

/-- For a supported format, `_extract_tables` succeeds and produces one
table and one `sheet_name` metadata entry per sheet, in workbook order. -/
lemma extractTables_ok (cfg : Config)
    (hfmt : cfg.table_format = "csv" ∨ cfg.table_format = "markdown")
    (wb : List (String × Grid)) :
    ∃ ts, extractTables cfg wb
        = Except.ok (ts, wb.map (fun s => [("sheet_name", MetaVal.str s.1)]))
      ∧ ts.length = wb.length := by
  obtain ⟨ts, hts, hlen⟩ := renderLoop_ok cfg hfmt
    (annotTrimGo cfg false
      (if cfg.table_format == "csv" then HeaderArg.flag false else HeaderArg.names [])
      (wb.map (fun s => (s.1, loadDF s.2)))).1
    (annotTrimGo cfg false
      (if cfg.table_format == "csv" then HeaderArg.flag false else HeaderArg.names [])
      (wb.map (fun s => (s.1, loadDF s.2)))).2.1
    (annotTrimGo cfg false
      (if cfg.table_format == "csv" then HeaderArg.flag false else HeaderArg.names [])
      (wb.map (fun s => (s.1, loadDF s.2)))).2.2
  have hfst : ((annotTrimGo cfg false
      (if cfg.table_format == "csv" then HeaderArg.flag false else HeaderArg.names [])
      (wb.map (fun s => (s.1, loadDF s.2)))).1).map Prod.fst = wb.map Prod.fst := by
    rw [annotTrimGo_names, List.map_map]
    rfl
  refine ⟨ts, ?_, ?_⟩
  · exact hts.trans (by rw [map_over_fst (fun n => [("sheet_name", MetaVal.str n)]) _ _ hfst])
  · calc ts.length = _ := hlen
      _ = wb.length := by
        rw [annotTrimGo_length, List.length_map]

/-- `run` on a single resolvable source whose extraction succeeds emits one
document per extracted table, merging the metadata with the per-sheet entry
taking precedence. -/
lemma run_single_ok (cfg : Config) (wb : List (String × Grid)) (bsm um : Meta)
    (ts : List String) (ms : List Meta)
    (hex : extractTables cfg wb = Except.ok (ts, ms)) :
    PandasExcelToDocument.run cfg [Source.ok { meta := bsm, parsed := some wb }] [um]
      = Except.ok ((ts.zip ms).map (fun te =>
          { id := "", content := te.1, meta := te.2 ++ um ++ bsm })) := by
  simp [PandasExcelToDocument.run, extractTablesBS, hex]

/-- Looking up `sheet_name` in each produced document's merged metadata gives
back the sheet names, because the per-sheet entry is the most recent merge
(python: rightmost in the dict literal, hence modelled leftmost). -/
lemma docs_meta_lookup (ts : List String) (wb : List (String × Grid)) (um bsm : Meta)
    (h : ts.length = wb.length) :
    (((ts.zip (wb.map (fun s => [("sheet_name", MetaVal.str s.1)]))).map
        (fun te => ({ id := "", content := te.1, meta := te.2 ++ um ++ bsm } : Document))).map
      (fun d => metaGet d.meta "sheet_name"))
      = wb.map (fun s => some (MetaVal.str s.1)) := by
  induction ts generalizing wb with
  | nil =>
    cases wb with
    | nil => rfl
    | cons s ws => simp at h
  | cons t ts ih =>
    cases wb with
    | nil => simp at h
    | cons s ws =>
      have htl : ts.length = ws.length := by simpa using h
      simp only [List.map_cons, List.zip_cons_cons]
      rw [ih ws htl]
      rfl

/-- C5: for every workbook and a supported table format, `_extract_tables`
succeeds with exactly one table and one `sheet_name` metadata entry per
sheet, in workbook sheet order, and `run` on a source parsing to this
workbook emits exactly one document per sheet, each of whose metadata lookup
of `sheet_name` yields the corresponding sheet's name — sheets that trim to
zero rows or columns included, since neither loop of `_extract_tables` ever
skips a sheet. -/
theorem c5_one_document_per_sheet (cfg : Config) (wb : List (String × Grid))
    (bsm um : Meta)
    (hfmt : cfg.table_format = "csv" ∨ cfg.table_format = "markdown") :
    ∃ ts docs,
      extractTables cfg wb
        = Except.ok (ts, wb.map (fun s => [("sheet_name", MetaVal.str s.1)]))
      ∧ ts.length = wb.length
      ∧ PandasExcelToDocument.run cfg [Source.ok { meta := bsm, parsed := some wb }] [um]
        = Except.ok docs
      ∧ docs.length = wb.length
      ∧ docs.map (fun d => metaGet d.meta "sheet_name")
        = wb.map (fun s => some (MetaVal.str s.1)) := by
  obtain ⟨ts, hex, hlen⟩ := extractTables_ok cfg hfmt wb
  refine ⟨ts, _, hex, hlen, run_single_ok cfg wb bsm um ts _ hex, ?_, ?_⟩
  · rw [List.length_map, List.length_zip, List.length_map, hlen, Nat.min_self]
  · exact docs_meta_lookup ts wb um bsm hlen

/-- C5 witness: a two-sheet workbook whose second sheet trims to nothing
still yields two documents, tagged in order. -/
theorem c5_one_document_per_sheet_witness :
    ∃ ts docs,
      extractTables { table_format := "csv" } [("A1", [[some "x"]]), ("Empty", [[none]])]
        = Except.ok (ts, [[("sheet_name", MetaVal.str "A1")], [("sheet_name", MetaVal.str "Empty")]])
      ∧ ts.length = 2
      ∧ PandasExcelToDocument.run { table_format := "csv" }
          [Source.ok { meta := [], parsed := some [("A1", [[some "x"]]), ("Empty", [[none]])] }] [[]]
        = Except.ok docs
      ∧ docs.length = 2
      ∧ docs.map (fun d => metaGet d.meta "sheet_name")
        = [some (MetaVal.str "A1"), some (MetaVal.str "Empty")] := by
  have h := c5_one_document_per_sheet { table_format := "csv" }
    [("A1", [[some "x"]]), ("Empty", [[none]])] [] [] (Or.inl rfl)
  simpa using h

/-- The configuration of C10's scenario: markdown with identifier
preservation and no user kwargs. -/
def cfgMarkdownPreserve : Config :=
  { table_format := "markdown"
    preserve_cell_identifiers := true }

/-- `loadDF` gives a sheet as many column labels as its loaded width. -/
lemma loadDF_ncols (g : Grid) : (loadDF g).columns.length = gridNcols g := by
  simp [loadDF]

/-- Under markdown with identifier preservation, the final value of the
loop-shared `keep_index`/`out_header` pair after the annotate/trim loop comes
from the last sheet alone: `keep_index = true` and `out_header` is the
column-letter list generated from the last sheet's pre-trim width. -/
lemma annotTrimGo_md_state :
    ∀ (l : List (String × DF)) (hne : l ≠ []) (ki : Bool) (oh : HeaderArg),
    (annotTrimGo cfgMarkdownPreserve ki oh l).2
      = (true, HeaderArg.names
          (_generate_excel_column_names (l.getLast hne).2.columns.length)) := by
  intro l
  induction l with
  | nil => intro hne; exact absurd rfl hne
  | cons s rest ih =>
    intro hne ki oh
    obtain ⟨name, df⟩ := s
    cases rest with
    | nil => rfl
    | cons y ys =>
      have h2 : y :: ys ≠ [] := by simp
      calc (annotTrimGo cfgMarkdownPreserve ki oh ((name, df) :: y :: ys)).2
          = (annotTrimGo cfgMarkdownPreserve true
              (HeaderArg.names (_generate_excel_column_names df.columns.length))
              (y :: ys)).2 := rfl
        _ = (true, HeaderArg.names
              (_generate_excel_column_names ((y :: ys).getLast h2).2.columns.length)) :=
            ih h2 _ _
        _ = _ := by rw [List.getLast_cons h2]

/-- Under markdown with no user kwargs, the rendering loop renders every
sheet with the `keep_index`/`out_header` values it was handed. -/
lemma renderLoop_md :
    ∀ (l : List (String × DF)) (ki : Bool) (oh : HeaderArg),
    renderLoop cfgMarkdownPreserve ki oh l
      = Except.ok (l.map (fun s => to_markdown s.2 ki oh),
                   l.map (fun s => [("sheet_name", MetaVal.str s.1)])) := by
  intro l
  induction l with
  | nil => exact fun ki oh => rfl
  | cons s rest ih =>
    intro ki oh
    obtain ⟨name, df⟩ := s
    simp only [renderLoop, ih]
    rfl

/-- C10: with markdown format and identifier preservation, `_extract_tables`
renders every sheet of the workbook with one and the same header argument —
the column-letter list generated from the last sheet's pre-trim width, the
final value of the loop-shared `out_header` variable — rather than with a
header list computed from the sheet actually being rendered. -/
theorem c10_last_sheet_header_used_for_all_sheets (wb : List (String × Grid))
    (hne : wb ≠ []) :
    extractTables cfgMarkdownPreserve wb
      = Except.ok
          (((annotTrimGo cfgMarkdownPreserve false (HeaderArg.names [])
              (wb.map (fun s => (s.1, loadDF s.2)))).1).map
            (fun s => to_markdown s.2 true
              (HeaderArg.names
                (_generate_excel_column_names (gridNcols (wb.getLast hne).2)))),
           wb.map (fun s => [("sheet_name", MetaVal.str s.1)])) := by
  have hmapne : wb.map (fun s => (s.1, loadDF s.2)) ≠ [] := by
    simp [List.map_eq_nil_iff, hne]
  have hstate := annotTrimGo_md_state (wb.map (fun s => (s.1, loadDF s.2))) hmapne
    false (HeaderArg.names [])
  have hcols : ((wb.map (fun s => (s.1, loadDF s.2))).getLast hmapne).2.columns.length
      = gridNcols (wb.getLast hne).2 := by
    rw [List.getLast_map]
    simp [loadDF]
  have h1 : (annotTrimGo cfgMarkdownPreserve false (HeaderArg.names [])
      (wb.map (fun s => (s.1, loadDF s.2)))).2.1 = true := by
    rw [hstate]
  have h2 : (annotTrimGo cfgMarkdownPreserve false (HeaderArg.names [])
      (wb.map (fun s => (s.1, loadDF s.2)))).2.2
      = HeaderArg.names
          (_generate_excel_column_names (gridNcols (wb.getLast hne).2)) := by
    rw [hstate, hcols]
  have hmeta : ((annotTrimGo cfgMarkdownPreserve false (HeaderArg.names [])
      (wb.map (fun s => (s.1, loadDF s.2)))).1).map
        (fun s => [("sheet_name", MetaVal.str s.1)])
      = wb.map (fun s => [("sheet_name", MetaVal.str s.1)]) := by
    refine map_over_fst (fun n => [("sheet_name", MetaVal.str n)]) _ _ ?_
    rw [annotTrimGo_names, List.map_map]
    rfl
  calc extractTables cfgMarkdownPreserve wb
      = renderLoop cfgMarkdownPreserve
          (annotTrimGo cfgMarkdownPreserve false (HeaderArg.names [])
            (wb.map (fun s => (s.1, loadDF s.2)))).2.1
          (annotTrimGo cfgMarkdownPreserve false (HeaderArg.names [])
            (wb.map (fun s => (s.1, loadDF s.2)))).2.2
          (annotTrimGo cfgMarkdownPreserve false (HeaderArg.names [])
            (wb.map (fun s => (s.1, loadDF s.2)))).1 := rfl
    _ = _ := by rw [h1, h2, renderLoop_md, hmeta]

/-- C10 witness: a two-sheet workbook whose first sheet is wider than the
last; the first sheet is rendered with the single-letter header list `A`
computed from the last sheet (its own two-column header list would have been
`A`, `B`), so its own first data column gets a padded empty header. -/
theorem c10_last_sheet_header_used_for_all_sheets_witness :
    extractTables cfgMarkdownPreserve [("S1", [[some "x", some "y"]]), ("S2", [[some "z"]])]
      = Except.ok (["|    |    | A   |\n|:---|:---|:----|\n| 0  | x  | y   |",
                    "|    | A   |\n|:---|:----|\n| 0  | z   |"],
                   [[("sheet_name", MetaVal.str "S1")], [("sheet_name", MetaVal.str "S2")]])
    ∧ _generate_excel_column_names (gridNcols [[some "x", some "y"]]) ≠ ["A"] :=
  ⟨c10_last_sheet_header_used_for_all_sheets
      [("S1", [[some "x", some "y"]]), ("S2", [[some "z"]])] (by simp),
   by decide⟩

/-- C6: for a matched citation to a document whose `src_url` contains the
substring `spreadsheets`, the resolver builds `link_name` as `file_name`
followed by `#` and the document's `sheet_name`, looks the sheet id up in the
document's `sheet_name_id_map` keyed by its own `sheet_name` (empty string if
missing) and appends `?gid=id#gid=id` to the url; it then searches the answer
text from the citation's `answer_start_idx` for the first `Row <digits>`
marker in braces, and if found appends `!row:row` to `link_name` and
`&range=row:row` to the url. -/
theorem c6_spreadsheet_deep_link (a : Answer) (r : Reference) (d : Document)
    (su fn sn gid : String)
    (hsu : metaGetStrD d.meta "src_url" "" = su)
    (hfn : metaGetStrD d.meta "file_name" "" = fn)
    (hsn : metaGetStrD d.meta "sheet_name" "" = sn)
    (hgid : ((metaGetDictD d.meta "sheet_name_id_map").find?
        (fun p => p.1 == sn)).elim "" (fun p => p.2) = gid)
    (hsub : strContains su "spreadsheets" = true) :
    resolveReference a r d =
      match searchRowMarker (a.data.drop r.answer_start_idx).toList with
      | some row =>
        (fn ++ "#" ++ sn ++ "!" ++ row ++ ":" ++ row,
         su ++ "?gid=" ++ gid ++ "#gid=" ++ gid ++ "&range=" ++ row ++ ":" ++ row)
      | none => (fn ++ "#" ++ sn, su ++ "?gid=" ++ gid ++ "#gid=" ++ gid) := by
  simp only [resolveReference, hsu, hfn, hsn, hgid, hsub, eq_self_iff_true, if_true]

/-- The document of C6's concrete spreadsheet scenario. -/
def c6Doc : Document :=
  { id := "d1"
    meta := [("src_url", MetaVal.str "http://sheets.google.com/spreadsheets/d/X"),
             ("file_name", MetaVal.str "Book"),
             ("sheet_name", MetaVal.str "Sheet1"),
             ("sheet_name_id_map", MetaVal.dict [("Sheet1", "0")])] }

/-- The answer of C6's concrete spreadsheet scenario: its text carries a row
marker after the citation's start index. -/
def c6Answer : Answer :=
  { data := "intro \x7bRow 5\x7d more"
    documents := [c6Doc]
    references := some [{ document_id := "d1", answer_start_idx := 0 }] }

/-- C6 witness: the spec's spreadsheet example, fully evaluated. -/
theorem c6_spreadsheet_deep_link_witness :
    resolveReference c6Answer { document_id := "d1", answer_start_idx := 0 } c6Doc
      = ("Book#Sheet1!5:5",
         "http://sheets.google.com/spreadsheets/d/X?gid=0#gid=0&range=5:5") :=
  (c6_spreadsheet_deep_link c6Answer { document_id := "d1", answer_start_idx := 0 }
      c6Doc _ _ _ _ rfl rfl rfl rfl (by decide)).trans (by decide)

/-- Folding string concatenation from any accumulator splits off the
accumulator. -/
lemma string_foldl_append (l : List String) :
    ∀ a : String, l.foldl (fun x y => x ++ y) a
      = a ++ l.foldl (fun x y => x ++ y) "" := by
  induction l with
  | nil => intro a; exact (String.append_empty a).symm
  | cons s ss ih =>
    intro a
    simp only [List.foldl_cons]
    rw [ih (a ++ s), ih ("" ++ s), String.append_assoc]
    rfl

/-- `String.join` distributes over cons. -/
lemma string_join_cons (s : String) (l : List String) :
    String.join (s :: l) = s ++ String.join l := by
  simp only [String.join, List.foldl_cons]
  exact string_foldl_append l ("" ++ s)

/-- A fold that appends one formatted entry per element equals the join of
the individually formatted entries. -/
lemma foldl_append_eq_join (fmt : Nat × (String × String) → String) :
    ∀ (l : List (Nat × (String × String))) (acc : String),
    l.foldl (fun a p => a ++ fmt p) acc = acc ++ String.join (l.map fmt) := by
  intro l
  induction l with
  | nil => intro acc; exact (String.append_empty acc).symm
  | cons p ps ih =>
    intro acc
    simp only [List.foldl_cons, List.map_cons]
    rw [ih (acc ++ fmt p), string_join_cons, String.append_assoc]

/-- The footnote fold of `ExternalLinkAdder.run` equals the join of the
individually formatted, 1-based sequentially numbered footnotes. -/
lemma footnoteStr_eq_join (links : List (String × String)) :
    footnoteStr links
      = String.join (links.enum.map (fun p =>
          "\n\n[[Ext " ++ toString (p.1 + 1) ++ "]" ++ p.2.1 ++ "](" ++ p.2.2 ++ ")")) := by
  unfold footnoteStr
  exact foldl_append_eq_join _ links.enum ""

/-- The cited document of C7's concrete no-deduplication scenario. -/
def c7Doc : Document :=
  { id := "d1"
    meta := [("src_url", MetaVal.str "http://x/doc.pdf"),
             ("file_name", MetaVal.str "doc.pdf")] }

/-- An answer citing the same document twice. -/
def c7Answer : Answer :=
  { data := "cited"
    documents := [c7Doc]
    references := some [{ document_id := "d1", answer_start_idx := 0 },
                        { document_id := "d1", answer_start_idx := 0 }] }

/-- An answer with no citation metadata at all. -/
def c7NoRefs : Answer :=
  { data := "plain", documents := [], references := none }

/-- C7: every answer leaves `run` with its original text followed by the
join, in citation order, of one footnote `\n\n[[Ext n]name](url)` per
resolved citation, numbered sequentially from 1 (first conjunct); an answer
none of whose citations resolved is left unmodified (second conjunct); two
citations of the same document are not deduplicated: they produce the two
distinct footnotes `Ext 1` and `Ext 2` appended once at the end (third
conjunct). -/
theorem c7_footnote_block (answers : List Answer) :
    ExternalLinkAdder.run answers
      = answers.map (fun a =>
          { a with data := a.data ++ String.join ((externalLinks a).enum.map (fun p =>
              "\n\n[[Ext " ++ toString (p.1 + 1) ++ "]" ++ p.2.1 ++ "](" ++ p.2.2 ++ ")")) })
    ∧ (∀ a : Answer, externalLinks a = [] → processAnswer a = a)
    ∧ ExternalLinkAdder.run [c7Answer]
      = [{ c7Answer with data := c7Answer.data
            ++ "\n\n[[Ext 1]doc.pdf](http://x/doc.pdf)\n\n[[Ext 2]doc.pdf](http://x/doc.pdf)" }] := by
  have hproc : ∀ a : Answer, processAnswer a
      = { a with data := a.data ++ String.join ((externalLinks a).enum.map (fun p =>
          "\n\n[[Ext " ++ toString (p.1 + 1) ++ "]" ++ p.2.1 ++ "](" ++ p.2.2 ++ ")")) } := by
    intro a
    cases hl : (externalLinks a).isEmpty with
    | true =>
      have hnil : externalLinks a = [] := by
        cases hext : externalLinks a with
        | nil => rfl
        | cons x xs => rw [hext] at hl; simp at hl
      have h2 : processAnswer a = a := by
        simp [processAnswer, hl]
      rw [h2, hnil]
      rw [show String.join (([] : List (String × String)).enum.map (fun p =>
        "\n\n[[Ext " ++ toString (p.1 + 1) ++ "]" ++ p.2.1 ++ "](" ++ p.2.2 ++ ")")) = ""
        from rfl]
      rw [String.append_empty]
    | false =>
      simp only [processAnswer, hl, Bool.false_eq_true, if_false]
      rw [footnoteStr_eq_join]
  refine ⟨?_, ?_, ?_⟩
  · unfold ExternalLinkAdder.run
    exact List.map_congr_left (fun a _ => hproc a)
  · intro a h
    simp [processAnswer, h]
  · rfl

/-- C7 witness: the second conjunct applied to an answer with no citation
list, together with the concrete no-deduplication conjunct. -/
theorem c7_footnote_block_witness :
    ExternalLinkAdder.run [c7Answer]
      = [{ c7Answer with data := c7Answer.data
            ++ "\n\n[[Ext 1]doc.pdf](http://x/doc.pdf)\n\n[[Ext 2]doc.pdf](http://x/doc.pdf)" }]
    ∧ processAnswer c7NoRefs = c7NoRefs :=
  ⟨(c7_footnote_block []).2.2, (c7_footnote_block []).2.1 c7NoRefs rfl⟩

/-- C8: the resolver's failure modes are all silent recoveries (the model of
`ExternalLinkAdder.run` is a total function — within the citation data model
it can raise nothing, and the method contains no logging call): an answer
with no `_references` metadata is left unmodified; a citation whose
`document_id` matches no document on the answer is silently dropped and
yields no link entry; when several documents share the cited id, the first in
list order is used (the inner loop breaks at its first match); and a missing
`src_url` or `file_name` metadata field defaults to the empty string. -/
theorem c8_silent_recovery :
    (∀ a : Answer, a.references = none → processAnswer a = a)
    ∧ (∀ (a : Answer) (r : Reference), a.references = some [r] →
        (∀ d ∈ a.documents, d.id ≠ r.document_id) → processAnswer a = a)
    ∧ (∀ (a : Answer) (r : Reference) (d : Document) (rest : List Document),
        a.references = some [r] → a.documents = d :: rest → d.id = r.document_id →
        externalLinks a = [resolveReference a r d])
    ∧ (∀ (a : Answer) (r : Reference) (d : Document), d.meta = [] →
        resolveReference a r d = ("", "")) := by
  refine ⟨?_, ?_, ?_, ?_⟩
  · intro a h
    simp [processAnswer, externalLinks, h]
  · intro a r href hnone
    have hf : a.documents.find? (fun d => d.id == r.document_id) = none :=
      List.find?_eq_none.2 (fun d hd => by simpa using hnone d hd)
    simp [processAnswer, externalLinks, href, hf]
  · intro a r d rest href hdocs hid
    simp [externalLinks, href, hdocs, List.find?_cons_of_pos, hid]
  · intro a r d h
    obtain ⟨i, c, m⟩ := d
    have hm : m = [] := h
    subst hm
    rfl

/-- An answer carrying no citation metadata. -/
def c8NoRef : Answer :=
  { data := "t", documents := [{ id := "other" }], references := none }

/-- An answer whose single citation matches none of its documents. -/
def c8Unmatched : Answer :=
  { data := "t", documents := [{ id := "other" }]
    references := some [{ document_id := "d1", answer_start_idx := 0 }] }

/-- An answer with two documents sharing the cited id. -/
def c8TwoDocs : Answer :=
  { data := "t"
    documents := [{ id := "d1", content := "first" }, { id := "d1", content := "second" }]
    references := some [{ document_id := "d1", answer_start_idx := 0 }] }

/-- C8 witness: all four recovery behaviors at concrete inputs. -/
theorem c8_silent_recovery_witness :
    processAnswer c8NoRef = c8NoRef
    ∧ processAnswer c8Unmatched = c8Unmatched
    ∧ externalLinks c8TwoDocs
      = [resolveReference c8TwoDocs { document_id := "d1", answer_start_idx := 0 }
          { id := "d1", content := "first" }]
    ∧ resolveReference c8NoRef { document_id := "d1", answer_start_idx := 0 }
        { id := "d1" } = ("", "") :=
  ⟨c8_silent_recovery.1 c8NoRef rfl,
   c8_silent_recovery.2.1 c8Unmatched { document_id := "d1", answer_start_idx := 0 }
     rfl (by decide),
   c8_silent_recovery.2.2.1 c8TwoDocs { document_id := "d1", answer_start_idx := 0 }
     { id := "d1", content := "first" } [{ id := "d1", content := "second" }] rfl rfl rfl,
   c8_silent_recovery.2.2.2 c8NoRef { document_id := "d1", answer_start_idx := 0 }
     { id := "d1" } rfl⟩

/-- C3 witness: the amended statement at a concrete user kwargs choice. -/
theorem c3_amended_user_kwargs_win_witness :
    extractTables (cfgC3 false (HeaderArg.flag false)) [("S", [[some "x"]])]
      = Except.ok ([to_csv { index := [0], columns := ["A"], data := [[some "x"]] }
          false (HeaderArg.flag false)],
        [[("sheet_name", MetaVal.str "S")]]) :=
  (c3_amended_user_kwargs_win false (HeaderArg.flag false)).1

/-- C9 witness: the length property at a concrete count. -/
theorem c9_column_label_generation_witness :
    (_generate_excel_column_names 3).length = 3 :=
  c9_column_label_generation.1 3
